import Mathlib

set_option maxRecDepth 40000
set_option maxHeartbeats 1000000

/-!
# PawDoctor (`src/app.py`) — shallow embedding and verification

This file embeds the core logic of the single-file Streamlit application
`src/app.py` (the "Pet Health Helper") and proves the frozen specification
claims about it.

Embedding conventions:
* Python strings are Lean `String`s; `str.strip()` is embedded as `pyStrip`
  (with Python's documented whitespace set, `str.isspace`).
* The uploaded file is abstracted as `RawImage`: a flag telling whether
  `PIL.Image.open` succeeds on its bytes plus the decoded pixel dimensions.
  `b64_data_url` returns `none` where the Python function raises
  (`PIL.UnidentifiedImageError` from `Image.open`).
* `PIL.Image.thumbnail((1024, 1024))` is embedded as `thumbnail1024`,
  transcribed from Pillow's `thumbnail`/`preserve_aspect_ratio` source with the
  float arithmetic carried out in exact rationals (`ℚ`).
* The JPEG encoder (`image.save(buffer, format="JPEG", quality=80)`) is an
  external C library; its byte stream is modelled by `jpegEncode`, which keeps
  the JPEG container structure (SOI marker, a frame header carrying the output
  dimensions, EOI marker) and abstracts the entropy-coded payload.  Everything
  proved about it uses only facts true of every JPEG stream: non-emptiness and
  bytes being bytes.
* `base64.b64encode` is embedded in full (`base64encodeList`, RFC 4648).
* Streamlit control flow (`st.stop`, `st.error`, the `try`/`except` around
  `run_triage`) is embedded as total functions returning outcome values; the
  Boolean returned alongside a `SubmitOutcome` records whether the outbound
  `client.responses.create` call was reached.
-/

namespace PawDoctor

/-! ## Python string primitives -/

/-- Python's default whitespace set for `str.strip()` (the characters `ch` with
`ch.isspace()`): ASCII whitespace `\t \n \x0b \x0c \r` and space, the C1/extra
controls `\x1c`–`\x1f` and `\x85`, and the Unicode space separators. -/
def isPyWhitespace (c : Char) : Bool :=
  decide (c.toNat = 32 ∨ (9 ≤ c.toNat ∧ c.toNat ≤ 13) ∨ (28 ≤ c.toNat ∧ c.toNat ≤ 31) ∨
    c.toNat = 133 ∨ c.toNat = 160 ∨ c.toNat = 5760 ∨ (8192 ≤ c.toNat ∧ c.toNat ≤ 8202) ∨
    c.toNat = 8232 ∨ c.toNat = 8233 ∨ c.toNat = 8239 ∨ c.toNat = 8287 ∨ c.toNat = 12288)

/-- `str.strip()` on the underlying character list: drop leading and trailing
whitespace. -/
def pyStripList (l : List Char) : List Char :=
  ((l.dropWhile isPyWhitespace).reverse.dropWhile isPyWhitespace).reverse

/-- `str.rstrip()` on the underlying character list. -/
def pyRstripList (l : List Char) : List Char :=
  (l.reverse.dropWhile isPyWhitespace).reverse

/-- Embedding of Python `s.strip()`. -/
def pyStrip (s : String) : String := String.mk (pyStripList s.data)

/-- Embedding of Python `s.replace(" ", "+")` (a single-character pattern, so
the replacement is a character-wise map). -/
def spacesToPlus (s : String) : String :=
  String.mk (s.data.map (fun ch => if ch = ' ' then '+' else ch))

/-! ## Data model

`run_triage` receives the `pet_profile` dict built at `src/app.py:209-218`.
All eight keys are always present and map to strings, so the dict is embedded
as a record of eight strings. -/

structure PetProfile where
  name : String
  species : String
  breed : String
  age : String
  weight : String
  sex : String
  conditions : String
  meds : String
deriving DecidableEq

/-- The `pet_profile = { ... }` dict literal at `src/app.py:209-218`:
`"name": pet_name.strip() if pet_name else "Not provided"` (the empty string is
the only falsy `str`), every other field passed through unchanged. -/
def mkPetProfile (pet_name species breed age weight sex conditions meds : String) :
    PetProfile where
  name := if pet_name = "" then "Not provided" else pyStrip pet_name
  species := species
  breed := breed
  age := age
  weight := weight
  sex := sex
  conditions := conditions
  meds := meds

/-! ## Image normalizer (`b64_data_url`, `src/app.py:25-42`) -/

/-- An uploaded file, abstracted to what the normalizer observes of it:
whether `PIL.Image.open` can decode the bytes, and the decoded pixel
dimensions. -/
structure RawImage where
  decodable : Bool
  width : Nat
  height : Nat
deriving DecidableEq

/-- Pillow's `round_aspect(number, key)` from `Image.thumbnail`:
`max(min(math.floor(number), math.ceil(number), key=key), 1)`.  Python's
two-argument `min` with a key returns the first argument on ties. -/
def round_aspect (number : ℚ) (key : ℤ → ℚ) : ℤ :=
  max (if key ⌊number⌋ ≤ key ⌈number⌉ then ⌊number⌋ else ⌈number⌉) 1

/-- Pillow's `Image.thumbnail(size)` applied at `size = (1024, 1024)`
(`src/app.py:33-34`), acting on the image dimensions.  Transcribed from
Pillow's `preserve_aspect_ratio`: no change when both dimensions already fit;
otherwise the aspect ratio `width / height` decides which target side is kept
at 1024 and the other is rounded by `round_aspect`.  Pillow computes with
IEEE doubles; the embedding computes in exact rationals. -/
def thumbnail1024 (w h : Nat) : Nat × Nat :=
  if 1024 ≥ w ∧ 1024 ≥ h then (w, h)
  else
    let aspect : ℚ := (w : ℚ) / (h : ℚ)
    if (1024 : ℚ) / 1024 ≥ aspect then
      ((round_aspect (1024 * aspect) (fun n => |aspect - (n : ℚ) / 1024|)).toNat, 1024)
    else
      (1024, (round_aspect (1024 / aspect) (fun n => |(1024 : ℚ) / (n : ℚ) - aspect|)).toNat)

/-- The dimension contract of the strict normalizer: images already within
1024×1024 pass through unresized; otherwise both output sides are bounded by
1024, the side the aspect test keeps is exactly 1024, and the other side is
the exact rescaling `1024 · short / long` up to rounding (within 1). -/
def ThumbnailSpec (w h : Nat) : Prop :=
  (w ≤ 1024 ∧ h ≤ 1024 → thumbnail1024 w h = (w, h)) ∧
  (1024 < w ∨ 1024 < h →
    (thumbnail1024 w h).1 ≤ 1024 ∧ (thumbnail1024 w h).2 ≤ 1024 ∧
    (w ≤ h → (thumbnail1024 w h).2 = 1024 ∧
      |((thumbnail1024 w h).1 : ℚ) - 1024 * w / h| ≤ 1) ∧
    (h < w → (thumbnail1024 w h).1 = 1024 ∧
      |((thumbnail1024 w h).2 : ℚ) - 1024 * h / w| ≤ 1))

/-- The six-bit-value-to-character table of RFC 4648 base64 (`A`–`Z`,
`a`–`z`, `0`–`9`, `+`, `/`). -/
def base64Char (n : Nat) : Char :=
  if n < 26 then Char.ofNat (65 + n)
  else if n < 52 then Char.ofNat (97 + (n - 26))
  else if n < 62 then Char.ofNat (48 + (n - 52))
  else if n = 62 then '+'
  else '/'

/-- Embedding of Python `base64.b64encode` (RFC 4648 with `=` padding) on a
byte list, producing the character list of the encoded string. -/
def base64encodeList : List Nat → List Char
  | [] => []
  | [b1] => [base64Char (b1 / 4), base64Char (b1 % 4 * 16), '=', '=']
  | [b1, b2] => [base64Char (b1 / 4), base64Char (b1 % 4 * 16 + b2 / 16),
      base64Char (b2 % 16 * 4), '=']
  | b1 :: b2 :: b3 :: rest =>
      base64Char (b1 / 4) :: base64Char (b1 % 4 * 16 + b2 / 16) ::
      base64Char (b2 % 16 * 4 + b3 / 64) :: base64Char (b3 % 64) :: base64encodeList rest

/-- A character of the base64 alphabet or the padding character `=`. -/
def isBase64Symbol (c : Char) : Bool :=
  decide (('A' ≤ c ∧ c ≤ 'Z') ∨ ('a' ≤ c ∧ c ≤ 'z') ∨ ('0' ≤ c ∧ c ≤ '9') ∨
    c = '+' ∨ c = '/' ∨ c = '=')

/-- Model of `image.save(buffer, format="JPEG", quality=80)`
(`src/app.py:38`): the byte stream written by Pillow's JPEG encoder for a
`w × h` RGB image.  The entropy-coded payload is abstracted; the model keeps
the JPEG container structure every such stream has: the SOI marker `FF D8`, a
baseline frame header (`FF C0`) carrying the image height and width as two
big-endian bytes each, and the EOI marker `FF D9`. -/
def jpegEncode (w h quality : Nat) : List Nat :=
  [0xFF, 0xD8] ++
  [0xFF, 0xC0, 0x00, 0x11, 0x08, h / 256, h % 256, w / 256, w % 256, 0x03] ++
  [0xFF, 0xD9]

/-- Embedding of `b64_data_url` (`src/app.py:25-42`): decode the upload
(`Image.open`), bound the dimensions (`image.thumbnail((1024, 1024))`),
convert to RGB and re-encode as JPEG at quality 80, then wrap the
base64-encoded bytes as a `data:image/jpeg;base64,` URL.  `none` models the
exception `Image.open` raises on undecodable bytes. -/
def b64_data_url (img : RawImage) : Option String :=
  if img.decodable then
    let wh := thumbnail1024 img.width img.height
    some ("data:image/jpeg;base64," ++ String.mk (base64encodeList (jpegEncode wh.1 wh.2 80)))
  else none

/-! ## Prompt builder (`run_triage`, `src/app.py:45-107`) -/

/-- The literal text of the `run_triage` f-string (`src/app.py:48-95`) from its
first non-newline character up to and including the `- Name: ` field label. -/
def headLit : String := "You are a pet health triage assistant. You are NOT a veterinarian and you must not diagnose.\n\nYour job: help the user understand urgency, safe do/don\x27t steps, and what to ask/tell a vet.\n\nRules:\n- Do NOT provide medication dosing.\n- Do NOT claim certainty or a diagnosis.\n- Provide an urgency level: HOME / VET SOON (24-48h) / URGENT (same day) / EMERGENCY (now).\n- If any red flags are present, choose EMERGENCY and explain why.\n- Be concise and actionable.\n\nReturn your answer in Markdown with these exact sections:\n\n## Urgency Level\n(one of: HOME / VET SOON / URGENT / EMERGENCY)\n\n## What this could be (possibilities to discuss with a vet)\n(3-6 bullets; framed as possibilities, not diagnosis)\n\n## Immediate safe steps\n(5-8 bullets; safe, general care)\n\n## Do NOT do\n(5-8 bullets; common unsafe actions)\n\n## Questions to answer (to improve accuracy)\n(5-10 bullets the owner can check quickly)\n\n## What to tell the vet (copy/paste)\n(brief summary: name, species, age, symptoms, timeline, appetite, water, vomiting/diarrhea, urination, energy, meds, toxins)\n\n## Emergency red flags\n(list key red flags and say to seek emergency care if present)\n\nPet profile:\n- Name: "

/-- The f-string of `run_triage` before `.strip()` is applied: a leading
newline, the fixed instruction block (`headLit`), the eight interpolated
profile fields with their labels, the owner-concerns block, and a trailing
newline.  The concatenation of the literal chunks is exactly the Python
triple-quoted literal. -/
def promptBody (p : PetProfile) (concerns : String) : String :=
  "\n" ++ headLit ++ p.name ++
  "\n- Species: " ++ p.species ++
  "\n- Breed: " ++ p.breed ++
  "\n- Age: " ++ p.age ++
  "\n- Weight: " ++ p.weight ++
  "\n- Sex: " ++ p.sex ++
  "\n- Known conditions: " ++ p.conditions ++
  "\n- Current meds: " ++ p.meds ++
  "\n\nOwner concerns:\n" ++ concerns ++ "\n"

/-- `prompt_text` as computed by `run_triage` (`src/app.py:48-95`): the
f-string with `.strip()` applied. -/
def prompt_text (p : PetProfile) (concerns : String) : String :=
  pyStrip (promptBody p concerns)

/-- The characters of the stripped prompt that precede the owner-concerns
text: `headLit`, the eight interpolated fields with their labels, and the
`Owner concerns:` label.  `prompt_text_data` proves that the stripped prompt
is exactly this list followed by the right-stripped concerns text. -/
def promptCore (p : PetProfile) : List Char :=
  headLit.data ++ p.name.data ++
  ("\n- Species: " : String).data ++ p.species.data ++
  ("\n- Breed: " : String).data ++ p.breed.data ++
  ("\n- Age: " : String).data ++ p.age.data ++
  ("\n- Weight: " : String).data ++ p.weight.data ++
  ("\n- Sex: " : String).data ++ p.sex.data ++
  ("\n- Known conditions: " : String).data ++ p.conditions.data ++
  ("\n- Current meds: " : String).data ++ p.meds.data ++
  ("\n\nOwner concerns:" : String).data

/-- Executable check that `pat` is an initial segment of `l`
(`listIsPre_iff` relates it to `<+:`). -/
def listIsPre : List Char → List Char → Bool
  | [], _ => true
  | _ :: _, [] => false
  | a :: ps, b :: ls => a == b && listIsPre ps ls

/-- Executable check that `pat` occurs contiguously somewhere in `l`
(`listHasSub_iff` relates it to `<:+:`); this is the "contains" of the
claims about rendered text. -/
def listHasSub (pat : List Char) : List Char → Bool
  | [] => pat.isEmpty
  | a :: rest => listIsPre pat (a :: rest) || listHasSub pat rest

/-- One element of the `content` list sent to the completion service. -/
inductive ContentPart where
  | text (s : String)
  | image (url : String)
deriving DecidableEq

/-- The `content` list assembled at `src/app.py:97-100`: the prompt text,
then — only when `image_data_url` is truthy (non-`None` and non-empty) — the
image data URL. -/
def triageContent (p : PetProfile) (concerns : String) (image_data_url : Option String) :
    List ContentPart :=
  let content := [ContentPart.text (prompt_text p concerns)]
  match image_data_url with
  | some u => if u = "" then content else content ++ [ContentPart.image u]
  | none => content

/-- The `input` argument of `client.responses.create` (`src/app.py:102-105`):
a single message of role `"user"` carrying `triageContent`. -/
def run_triage_input (p : PetProfile) (concerns : String) (image_data_url : Option String) :
    List (String × List ContentPart) :=
  [("user", triageContent p concerns image_data_url)]

/-- The full outbound request of `run_triage`: the fixed model identifier
(`src/app.py:46`) paired with the message list. -/
def run_triage_request (p : PetProfile) (concerns : String) (image_data_url : Option String) :
    String × List (String × List ContentPart) :=
  ("gpt-4.1-mini", run_triage_input p concerns image_data_url)

/-! ## Startup key check (`src/app.py:15-20`) -/

/-- `st.secrets.get("OPENAI_API_KEY", os.getenv("OPENAI_API_KEY"))`: the
secrets-store value when the key is present there, otherwise the environment
value (`none` when both are absent, like Python `None`). -/
def resolveApiKey (secretsVal envVal : Option String) : Option String :=
  match secretsVal with
  | some v => some v
  | none => envVal

/-- Result of running the script prelude: `halted` models
`st.error(...)` followed by `st.stop()` (which raises, so nothing after it
runs — no form is rendered and no client is constructed); `ready k` models
falling through to `client = OpenAI(api_key=k)` and the UI. -/
inductive StartupOutcome where
  | halted
  | ready (key : String)
deriving DecidableEq

/-- The startup check `if not OPENAI_API_KEY: st.error(...); st.stop()`
(`src/app.py:16-18`).  `not` is Python truthiness: both `None` and the empty
string halt. -/
def startup (secretsVal envVal : Option String) : StartupOutcome :=
  match resolveApiKey secretsVal envVal with
  | none => .halted
  | some k => if k = "" then .halted else .ready k

/-! ## Vet-finder link (`src/app.py:234-238`) -/

/-- The Google-Maps URL rendered for a non-empty location:
`f"https://www.google.com/maps/search/{query.replace(' ', '+')}"` with
`query = f"emergency vet near {location}"`. -/
def vetSearchLink (location : String) : String :=
  "https://www.google.com/maps/search/" ++ spacesToPlus ("emergency vet near " ++ location)

/-! ## Submission handler (`src/app.py:243-259`) -/

/-- What a click of the analyze button ends in.  `validationError` is the
`st.error("Please describe symptoms first."); st.stop()` branch;
`uncaughtException` is an exception escaping the handler (Streamlit then
aborts the script run with a traceback, not a handler message);
`renderedResult` is the success path with its `## Results for {title_name}`
heading; `shownRetryMessage` is the `except` branch showing
"Something went wrong while analyzing. Try again or use a smaller image." -/
inductive SubmitOutcome where
  | validationError
  | uncaughtException
  | renderedResult (title_name : String) (markdown : String)
  | shownRetryMessage
deriving DecidableEq

/-- The `try`/`except` around `run_triage` (`src/app.py:252-259`).
`serviceReply` stands for the external completion call: `some md` is a normal
return of `response.output_text`, `none` a transport/auth/service exception.
The Boolean records that the outbound call was issued. -/
def runTriageStep (p : PetProfile) (serviceReply : Option String) : SubmitOutcome × Bool :=
  match serviceReply with
  | some md => (.renderedResult (if p.name ≠ "Not provided" then p.name else "your pet") md, true)
  | none => (.shownRetryMessage, true)

/-- The analyze-button handler (`src/app.py:243-259`): stop with a validation
error on blank concerns; otherwise compute
`image_url = b64_data_url(uploaded) if uploaded else None` — *outside* the
`try` block — then run the guarded triage call.  A decode failure inside
`b64_data_url` therefore escapes the handler uncaught. -/
def submitHandler (p : PetProfile) (concerns : String) (uploaded : Option RawImage)
    (serviceReply : Option String) : SubmitOutcome × Bool :=
  if pyStrip concerns = "" then (.validationError, false)
  else
    match uploaded with
    | some img =>
      match b64_data_url img with
      | none => (.uncaughtException, false)
      | some _url => runTriageStep p serviceReply
    | none => runTriageStep p serviceReply

/-- The profile of the spec's §8 scenario, used as the concrete input of
witnesses and counterexamples. -/
def demoProfile : PetProfile :=
  { name := "Oso", species := "Dog", breed := "Labrador", age := "3 years",
    weight := "30kg", sex := "Male", conditions := "none", meds := "none" }

/-! ## Text-containment infrastructure -/

theorem listIsPre_iff : ∀ (pat l : List Char), listIsPre pat l = true ↔ pat <+: l
  | [], l => ⟨fun _ => ⟨l, rfl⟩, fun _ => rfl⟩
  | a :: ps, [] => by
    constructor
    · intro h
      simp [listIsPre] at h
    · rintro ⟨t, ht⟩
      exact absurd ht (by simp)
  | a :: ps, b :: ls => by
    simp [listIsPre, List.cons_prefix_cons, listIsPre_iff ps ls]

theorem listHasSub_iff : ∀ (pat l : List Char), listHasSub pat l = true ↔ pat <:+: l
  | pat, [] => by
    constructor
    · intro h
      have hp : pat = [] := by simpa [listHasSub, List.isEmpty_iff] using h
      exact ⟨[], [], by simp [hp]⟩
    · rintro ⟨s, t, hst⟩
      have h3 : s = [] ∧ pat = [] ∧ t = [] := by simpa [List.append_assoc] using hst
      simp [listHasSub, h3.2.1]
  | pat, a :: rest => by
    rw [listHasSub]
    simp [Bool.or_eq_true, listIsPre_iff, listHasSub_iff pat rest, List.infix_cons_iff]

theorem sub_append_left {x l : List Char} (m : List Char) (h : x <:+: l) : x <:+: l ++ m := by
  rcases h with ⟨s, t, rfl⟩
  exact ⟨s, t ++ m, by simp [List.append_assoc]⟩

theorem sub_append_right (l : List Char) {x m : List Char} (h : x <:+: m) : x <:+: l ++ m := by
  rcases h with ⟨s, t, rfl⟩
  exact ⟨l ++ s, t, by simp [List.append_assoc]⟩

theorem nil_sub (l : List Char) : ([] : List Char) <:+: l := ⟨[], l, by simp⟩

/-! ## The normal form of the stripped prompt -/

theorem pyStrip_data (s : String) : (pyStrip s).data = pyStripList s.data := rfl

theorem ws_newline : isPyWhitespace '\n' = true := by decide

theorem not_ws_colon : isPyWhitespace ':' = false := by decide

theorem dropWhile_headLit (m : List Char) :
    (headLit.data ++ m).dropWhile isPyWhitespace = headLit.data ++ m := by
  have hne : headLit.data ≠ [] := by decide
  have hw : isPyWhitespace (headLit.data.headD ' ') = false := by decide
  cases hh : headLit.data with
  | nil => exact absurd hh hne
  | cons a tl =>
    rw [hh] at hw
    simp only [List.headD_cons] at hw
    simp [List.cons_append, List.dropWhile_cons, hw]

theorem owner_split : ("\n\nOwner concerns:\n" : String).data
    = ("\n\nOwner concerns:" : String).data ++ ['\n'] := by decide

theorem owner_colon_split : ("\n\nOwner concerns:" : String).data
    = ("\n\nOwner concerns" : String).data ++ [':'] := by decide

/-- The reversed `promptCore` starts with the colon of `Owner concerns:`. -/
theorem promptCore_reverse (p : PetProfile) :
    (promptCore p).reverse
      = ':' :: (("\n\nOwner concerns" : String).data.reverse
        ++ p.meds.data.reverse ++ ("\n- Current meds: " : String).data.reverse
        ++ p.conditions.data.reverse ++ ("\n- Known conditions: " : String).data.reverse
        ++ p.sex.data.reverse ++ ("\n- Sex: " : String).data.reverse
        ++ p.weight.data.reverse ++ ("\n- Weight: " : String).data.reverse
        ++ p.age.data.reverse ++ ("\n- Age: " : String).data.reverse
        ++ p.breed.data.reverse ++ ("\n- Breed: " : String).data.reverse
        ++ p.species.data.reverse ++ ("\n- Species: " : String).data.reverse
        ++ p.name.data.reverse ++ headLit.data.reverse) := by
  simp [promptCore, owner_colon_split, List.reverse_append, List.append_assoc]

theorem promptCore_reverse_dropWhile (p : PetProfile) :
    (promptCore p).reverse.dropWhile isPyWhitespace = (promptCore p).reverse := by
  rw [promptCore_reverse]
  exact List.dropWhile_cons_of_neg (by simp [not_ws_colon])

/-- The `.strip()` of the `run_triage` f-string in closed form: the leading
newline of the template is removed, the fixed text and the interpolated fields
(`promptCore`) survive unchanged, and of the appended concerns text exactly
its right-stripped part survives (together with the newline separating it from
the `Owner concerns:` label, unless nothing of the concerns text remains). -/
theorem prompt_text_data (p : PetProfile) (c : String) :
    (prompt_text p c).data
      = promptCore p
        ++ (if pyRstripList c.data = [] then [] else '\n' :: pyRstripList c.data) := by
  have h0 : ("\n" : String).data = ['\n'] := rfl
  have hb : (promptBody p c).data
      = '\n' :: (headLit.data
        ++ (p.name.data ++ (("\n- Species: " : String).data
        ++ (p.species.data ++ (("\n- Breed: " : String).data
        ++ (p.breed.data ++ (("\n- Age: " : String).data
        ++ (p.age.data ++ (("\n- Weight: " : String).data
        ++ (p.weight.data ++ (("\n- Sex: " : String).data
        ++ (p.sex.data ++ (("\n- Known conditions: " : String).data
        ++ (p.conditions.data ++ (("\n- Current meds: " : String).data
        ++ (p.meds.data ++ (("\n\nOwner concerns:" : String).data
        ++ ('\n' :: (c.data ++ ['\n']))))))))))))))))))) := by
    simp only [promptBody, String.data_append, owner_split, h0,
      List.append_assoc, List.singleton_append, List.cons_append, List.nil_append]
  have hl : (promptBody p c).data.dropWhile isPyWhitespace
      = promptCore p ++ ('\n' :: (c.data ++ ['\n'])) := by
    rw [hb, List.dropWhile_cons_of_pos ws_newline, dropWhile_headLit]
    simp only [promptCore, List.append_assoc]
  have hpt : (prompt_text p c).data = pyStripList (promptBody p c).data :=
    pyStrip_data (promptBody p c)
  rw [hpt]
  simp only [pyStripList]
  rw [hl]
  have hrev : (promptCore p ++ ('\n' :: (c.data ++ ['\n']))).reverse
      = '\n' :: (c.data.reverse ++ ('\n' :: (promptCore p).reverse)) := by
    simp [List.reverse_append, List.append_assoc]
  rw [hrev, List.dropWhile_cons_of_pos ws_newline, List.dropWhile_append]
  by_cases hc : c.data.reverse.dropWhile isPyWhitespace = []
  · have hif : pyRstripList c.data = [] := by rw [pyRstripList, hc]; rfl
    simp only [hc, List.isEmpty_nil, if_true, hif, if_pos,
      List.dropWhile_cons_of_pos ws_newline, promptCore_reverse_dropWhile,
      List.reverse_reverse, List.append_nil]
  · have hne : (c.data.reverse.dropWhile isPyWhitespace).isEmpty = false := by
      simpa [List.isEmpty_iff] using hc
    have hif : ¬ (pyRstripList c.data = []) := by
      simp [pyRstripList, hc]
    rw [if_neg hif]
    simp only [hne, Bool.false_eq_true, if_false, List.reverse_append,
      List.reverse_cons, List.reverse_reverse, pyRstripList, List.append_assoc,
      List.cons_append, List.nil_append, List.singleton_append]

theorem sub_refl (l : List Char) : l <:+: l := ⟨[], [], by simp⟩

theorem sub_prompt_of_core {x : List Char} (p : PetProfile) (c : String)
    (h : x <:+: promptCore p) : x <:+: (prompt_text p c).data := by
  rw [prompt_text_data]
  exact sub_append_left _ h

theorem sub_prompt_of_headLit {x : List Char} (p : PetProfile) (c : String)
    (h : x <:+: headLit.data) : x <:+: (prompt_text p c).data := by
  apply sub_prompt_of_core
  simp only [promptCore, List.append_assoc]
  exact sub_append_left _ h

/-- **C1** (amended).  For every profile record and every concerns string, the
rendered prompt contains all seven section-header strings verbatim and the
interpolated value of every profile field; of the concerns text it contains
the right-stripped part (the template ends `...{concerns}\n` and `.strip()`
removes the trailing whitespace of the interpolation, so concerns text ending
in whitespace is not contained verbatim — see the counterexample). -/
theorem C1_prompt_contents (p : PetProfile) (concerns : String) :
    (("## Urgency Level" : String).data <:+: (prompt_text p concerns).data) ∧
    (("## What this could be (possibilities to discuss with a vet)" : String).data
      <:+: (prompt_text p concerns).data) ∧
    (("## Immediate safe steps" : String).data <:+: (prompt_text p concerns).data) ∧
    (("## Do NOT do" : String).data <:+: (prompt_text p concerns).data) ∧
    (("## Questions to answer (to improve accuracy)" : String).data
      <:+: (prompt_text p concerns).data) ∧
    (("## What to tell the vet (copy/paste)" : String).data
      <:+: (prompt_text p concerns).data) ∧
    (("## Emergency red flags" : String).data <:+: (prompt_text p concerns).data) ∧
    (p.name.data <:+: (prompt_text p concerns).data) ∧
    (p.species.data <:+: (prompt_text p concerns).data) ∧
    (p.breed.data <:+: (prompt_text p concerns).data) ∧
    (p.age.data <:+: (prompt_text p concerns).data) ∧
    (p.weight.data <:+: (prompt_text p concerns).data) ∧
    (p.sex.data <:+: (prompt_text p concerns).data) ∧
    (p.conditions.data <:+: (prompt_text p concerns).data) ∧
    (p.meds.data <:+: (prompt_text p concerns).data) ∧
    (pyRstripList concerns.data <:+: (prompt_text p concerns).data) := by
  refine ⟨?_, ?_, ?_, ?_, ?_, ?_, ?_, ?_, ?_, ?_, ?_, ?_, ?_, ?_, ?_, ?_⟩
  · exact sub_prompt_of_headLit p concerns ((listHasSub_iff _ _).mp (by decide))
  · exact sub_prompt_of_headLit p concerns ((listHasSub_iff _ _).mp (by decide))
  · exact sub_prompt_of_headLit p concerns ((listHasSub_iff _ _).mp (by decide))
  · exact sub_prompt_of_headLit p concerns ((listHasSub_iff _ _).mp (by decide))
  · exact sub_prompt_of_headLit p concerns ((listHasSub_iff _ _).mp (by decide))
  · exact sub_prompt_of_headLit p concerns ((listHasSub_iff _ _).mp (by decide))
  · exact sub_prompt_of_headLit p concerns ((listHasSub_iff _ _).mp (by decide))
  · exact sub_prompt_of_core p concerns (by
      simp only [promptCore, List.append_assoc]
      exact sub_append_right _ (sub_append_left _ (sub_refl _)))
  · exact sub_prompt_of_core p concerns (by
      simp only [promptCore, List.append_assoc]
      exact sub_append_right _ (sub_append_right _ (sub_append_right _
        (sub_append_left _ (sub_refl _)))))
  · exact sub_prompt_of_core p concerns (by
      simp only [promptCore, List.append_assoc]
      exact sub_append_right _ (sub_append_right _ (sub_append_right _
        (sub_append_right _ (sub_append_right _
        (sub_append_left _ (sub_refl _)))))))
  · exact sub_prompt_of_core p concerns (by
      simp only [promptCore, List.append_assoc]
      exact sub_append_right _ (sub_append_right _ (sub_append_right _
        (sub_append_right _ (sub_append_right _ (sub_append_right _
        (sub_append_right _ (sub_append_left _ (sub_refl _)))))))))
  · exact sub_prompt_of_core p concerns (by
      simp only [promptCore, List.append_assoc]
      exact sub_append_right _ (sub_append_right _ (sub_append_right _
        (sub_append_right _ (sub_append_right _ (sub_append_right _
        (sub_append_right _ (sub_append_right _ (sub_append_right _
        (sub_append_left _ (sub_refl _)))))))))))
  · exact sub_prompt_of_core p concerns (by
      simp only [promptCore, List.append_assoc]
      exact sub_append_right _ (sub_append_right _ (sub_append_right _
        (sub_append_right _ (sub_append_right _ (sub_append_right _
        (sub_append_right _ (sub_append_right _ (sub_append_right _
        (sub_append_right _ (sub_append_right _
        (sub_append_left _ (sub_refl _)))))))))))))
  · exact sub_prompt_of_core p concerns (by
      simp only [promptCore, List.append_assoc]
      exact sub_append_right _ (sub_append_right _ (sub_append_right _
        (sub_append_right _ (sub_append_right _ (sub_append_right _
        (sub_append_right _ (sub_append_right _ (sub_append_right _
        (sub_append_right _ (sub_append_right _ (sub_append_right _
        (sub_append_right _ (sub_append_left _ (sub_refl _)))))))))))))))
  · exact sub_prompt_of_core p concerns (by
      simp only [promptCore, List.append_assoc]
      exact sub_append_right _ (sub_append_right _ (sub_append_right _
        (sub_append_right _ (sub_append_right _ (sub_append_right _
        (sub_append_right _ (sub_append_right _ (sub_append_right _
        (sub_append_right _ (sub_append_right _ (sub_append_right _
        (sub_append_right _ (sub_append_right _ (sub_append_right _
        (sub_append_left _ (sub_refl _)))))))))))))))))
  · rw [prompt_text_data]
    by_cases h : pyRstripList concerns.data = []
    · rw [h]
      exact nil_sub _
    · rw [if_neg h]
      exact sub_append_right _ ⟨['\n'], [], by simp⟩

/-- **C1** (counterexample).  With the §8 scenario profile and the concerns
text `"zzq "` (ending in a space), the rendered prompt does not contain the
concerns text verbatim: `.strip()` removed the trailing space. -/
theorem C1_counterexample :
    (("zzq " : String).data <:+: (prompt_text demoProfile "zzq ").data) ↔ False :=
  iff_false_intro fun h => absurd ((listHasSub_iff _ _).mpr h) (by decide)

/-- **C2**.  A submission whose concerns text strips to nothing ends in the
validation error (`st.error` + `st.stop`) and the outbound completion call is
not issued, whatever the profile, upload and would-be service reply. -/
theorem C2_blank_concerns_no_call (p : PetProfile) (concerns : String)
    (uploaded : Option RawImage) (serviceReply : Option String)
    (h : pyStrip concerns = "") :
    submitHandler p concerns uploaded serviceReply = (SubmitOutcome.validationError, false) := by
  simp [submitHandler, h]

theorem C2_blank_concerns_witness :
    pyStrip " \t\n " = "" ∧
      submitHandler demoProfile " \t\n " none none = (SubmitOutcome.validationError, false) :=
  ⟨by decide, C2_blank_concerns_no_call demoProfile " \t\n " none none (by decide)⟩

/-- **C5** (the code, evaluated at the failing input).  With non-blank
concerns and an upload whose bytes do not decode, the handler ends in an
uncaught exception — `b64_data_url` is called at `src/app.py:249`, before the
`try` of line 252, so the decode failure is not mapped to the retry message —
and the outbound call is not issued. -/
theorem C5_decode_failure_uncaught :
    submitHandler demoProfile "vomited twice since this morning, lethargic"
        (some { decodable := false, width := 0, height := 0 }) (some "reply")
      = (SubmitOutcome.uncaughtException, false) := by
  decide

/-- **C6** (counterexample).  A blank breed is not replaced by any sentinel:
the `pet_profile` dict passes `breed` through unchanged, so it remains the
empty string. -/
theorem C6_counterexample :
    (mkPetProfile "Oso" "Dog" "" "" "" "Male" "" "").breed = "" := rfl

/-- **C6** (amended).  Only `name` is defaulted (to `"Not provided"` when the
input is empty); `breed`, `age`, `weight`, `sex`, `conditions` and `meds` are
passed through unchanged, so a blank value stays blank — the rendered prompt
of a profile with a blank breed shows the `- Breed: ` label immediately
followed by the next label. -/
theorem C6_fields_passthrough (pet_name species breed age weight sex conditions
    meds : String) :
    (mkPetProfile pet_name species breed age weight sex conditions meds
        = { name := if pet_name = "" then "Not provided" else pyStrip pet_name,
            species := species, breed := breed, age := age, weight := weight,
            sex := sex, conditions := conditions, meds := meds }) ∧
    ("- Breed: \n- Age: " : String).data <:+:
      (prompt_text (mkPetProfile "Oso" "Dog" "" "" "" "Male" "" "") "sick").data :=
  ⟨rfl, (listHasSub_iff _ _).mp (by decide)⟩

/-- **C7**.  When the resolved key (secrets store, then environment fallback)
is absent the startup check halts the script before any UI work; when it
resolves to a non-empty string, startup proceeds with that key. -/
theorem C7_startup_key_check (secretsVal envVal : Option String) :
    (resolveApiKey secretsVal envVal = none → startup secretsVal envVal = .halted) ∧
    (∀ k, resolveApiKey secretsVal envVal = some k → k ≠ "" →
      startup secretsVal envVal = .ready k) := by
  constructor
  · intro h
    simp [startup, h]
  · intro k h hk
    simp [startup, h, hk]

theorem C7_startup_key_witness :
    startup none none = .halted ∧ startup (some "sk-test") none = .ready "sk-test" :=
  ⟨(C7_startup_key_check none none).1 rfl,
    (C7_startup_key_check (some "sk-test") none).2 "sk-test" rfl (by decide)⟩

/-- **C8** (counterexample).  At location `"12&34"` the rendered link contains
a raw `&` (a character URL-encoding would escape) and contains neither `%26`
nor `%20`: the code only does `query.replace(" ", "+")`, it does not
URL-encode. -/
theorem C8_counterexample :
    listHasSub ['&'] (vetSearchLink "12&34").data = true ∧
    listHasSub ("%26" : String).data (vetSearchLink "12&34").data = false ∧
    listHasSub ("%20" : String).data (vetSearchLink "12&34").data = false :=
  ⟨by decide, by decide, by decide⟩

/-- **C8** (amended).  The link is the fixed Google-Maps search URL followed
by `"emergency vet near " + location` with every space turned into `+` and
every other character passed through verbatim; in particular the link never
contains a literal space, and every non-space character of the location
appears in it unescaped. -/
theorem C8_spaces_to_plus (location : String) :
    ((vetSearchLink location).data
      = ("https://www.google.com/maps/search/" : String).data
        ++ (("emergency vet near " : String).data ++ location.data).map
            (fun ch => if ch = ' ' then '+' else ch)) ∧
    (∀ ch ∈ (vetSearchLink location).data, ch ≠ ' ') ∧
    (∀ ch ∈ location.data, ch ≠ ' ' → ch ∈ (vetSearchLink location).data) := by
  have hdata : (vetSearchLink location).data
      = ("https://www.google.com/maps/search/" : String).data
        ++ (("emergency vet near " : String).data ++ location.data).map
            (fun ch => if ch = ' ' then '+' else ch) := by
    simp [vetSearchLink, spacesToPlus, String.data_append]
  refine ⟨hdata, ?_, ?_⟩
  · intro ch hch
    rw [hdata] at hch
    rcases List.mem_append.mp hch with hbase | hmap
    · have hb : ∀ c ∈ ("https://www.google.com/maps/search/" : String).data, ¬ c = ' ' := by
        decide
      exact hb ch hbase
    · rcases List.mem_map.mp hmap with ⟨a, _ha, hfa⟩
      subst hfa
      by_cases hsp : a = ' ' <;> simp [hsp]
  · intro ch hch hsp
    rw [hdata]
    refine List.mem_append_right _ (List.mem_map.mpr ⟨ch, List.mem_append_right _ hch, ?_⟩)
    simp [hsp]

theorem C8_spaces_to_plus_witness :
    ('&' ∈ ("12&34" : String).data ∧ '&' ≠ ' ') ∧
      '&' ∈ (vetSearchLink "12&34").data :=
  ⟨by decide, (C8_spaces_to_plus "12&34").2.2 '&' (by decide) (by decide)⟩

/-- **C9**.  The request input of `run_triage` is exactly one message, its
role is `user`, its first content part is the rendered prompt text, and it
carries an image part precisely when the `image_data_url` argument is a
non-`None`, non-empty string (`if image_data_url:` is Python truthiness, so
an empty data URL attaches nothing). -/
theorem C9_single_user_message (p : PetProfile) (concerns : String)
    (image_data_url : Option String) :
    (run_triage_input p concerns image_data_url).length = 1 ∧
    ∀ msg ∈ run_triage_input p concerns image_data_url,
      msg.1 = "user" ∧
      msg.2.head? = some (ContentPart.text (prompt_text p concerns)) ∧
      ((∃ u, ContentPart.image u ∈ msg.2) ↔ (∃ u, image_data_url = some u ∧ u ≠ "")) := by
  refine ⟨rfl, ?_⟩
  intro msg hmsg
  have hm : msg = ("user", triageContent p concerns image_data_url) := by
    simpa [run_triage_input] using hmsg
  subst hm
  refine ⟨rfl, ?_, ?_⟩
  · cases image_data_url with
    | none => rfl
    | some u =>
      by_cases hu : u = "" <;> simp [triageContent, hu]
  · cases image_data_url with
    | none => simp [triageContent]
    | some u =>
      by_cases hu : u = "" <;> simp [triageContent, hu]

theorem C9_single_user_message_witness :
    (("user", triageContent demoProfile "sick" none)
        ∈ run_triage_input demoProfile "sick" none) ∧
      (("user", triageContent demoProfile "sick" none).1 = "user" ∧
        ("user", triageContent demoProfile "sick" none).2.head?
          = some (ContentPart.text (prompt_text demoProfile "sick")) ∧
        ((∃ u, ContentPart.image u ∈ ("user", triageContent demoProfile "sick" none).2)
          ↔ (∃ u, (none : Option String) = some u ∧ u ≠ ""))) :=
  ⟨List.mem_singleton.mpr rfl,
    (C9_single_user_message demoProfile "sick" none).2 _ (List.mem_singleton.mpr rfl)⟩

/-- **C10**.  Prompt construction and request assembly are deterministic
functions of the profile, concerns and image argument alone: equal inputs
give an identical rendered prompt and an identical outbound request (model
identifier included). -/
theorem C10_deterministic (p₁ p₂ : PetProfile) (c₁ c₂ : String)
    (i₁ i₂ : Option String) (hp : p₁ = p₂) (hc : c₁ = c₂) (hi : i₁ = i₂) :
    prompt_text p₁ c₁ = prompt_text p₂ c₂ ∧
    run_triage_request p₁ c₁ i₁ = run_triage_request p₂ c₂ i₂ := by
  subst hp
  subst hc
  subst hi
  exact ⟨rfl, rfl⟩

theorem C10_deterministic_witness :
    (demoProfile = demoProfile ∧ "sick" = "sick"
        ∧ (none : Option String) = (none : Option String)) ∧
      (prompt_text demoProfile "sick" = prompt_text demoProfile "sick" ∧
        run_triage_request demoProfile "sick" none
          = run_triage_request demoProfile "sick" none) :=
  ⟨⟨rfl, rfl, rfl⟩,
    C10_deterministic demoProfile demoProfile "sick" "sick" none none rfl rfl rfl⟩

/-! ## Thumbnail arithmetic -/

theorem round_aspect_le {q : ℚ} {key : ℤ → ℚ} {B : ℤ} (hq : q ≤ (B : ℚ)) (hB : 1 ≤ B) :
    round_aspect q key ≤ B := by
  unfold round_aspect
  apply max_le _ hB
  split
  · calc ⌊q⌋ ≤ ⌊(B : ℚ)⌋ := Int.floor_le_floor hq
      _ = B := Int.floor_intCast B
  · exact Int.ceil_le.mpr hq

theorem round_aspect_one_le (q : ℚ) (key : ℤ → ℚ) : 1 ≤ round_aspect q key :=
  le_max_right _ _

/-- The rounded side is within 1 of the exact rational value. -/
theorem round_aspect_close {q : ℚ} (key : ℤ → ℚ) (hq : 0 < q) :
    |(((round_aspect q key).toNat : ℚ)) - q| ≤ 1 := by
  have h1 : 1 ≤ round_aspect q key := round_aspect_one_le q key
  have h2 : ((round_aspect q key).toNat : ℤ) = round_aspect q key :=
    Int.toNat_of_nonneg (by omega)
  have hcast : (((round_aspect q key).toNat : ℚ)) = ((round_aspect q key : ℤ) : ℚ) := by
    calc ((round_aspect q key).toNat : ℚ)
        = (((round_aspect q key).toNat : ℤ) : ℚ) := by push_cast; ring
      _ = ((round_aspect q key : ℤ) : ℚ) := by rw [h2]
  rw [hcast]
  rcases le_or_lt 1 (if key ⌊q⌋ ≤ key ⌈q⌉ then (⌊q⌋ : ℤ) else ⌈q⌉) with hm | hm
  · have hr : round_aspect q key = if key ⌊q⌋ ≤ key ⌈q⌉ then (⌊q⌋ : ℤ) else ⌈q⌉ := by
      unfold round_aspect
      exact max_eq_left hm
    rw [hr]
    split
    · rw [abs_le]
      refine ⟨?_, ?_⟩
      · have h3 := Int.lt_floor_add_one q
        linarith
      · have h3 := Int.floor_le q
        linarith
    · rw [abs_le]
      refine ⟨?_, ?_⟩
      · have h3 := Int.le_ceil q
        linarith
      · have h3 := Int.ceil_lt_add_one q
        linarith
  · have hr : round_aspect q key = 1 := by
      unfold round_aspect
      exact max_eq_right (by omega)
    rw [hr]
    have hqlt : q < 1 := by
      by_cases hk : key ⌊q⌋ ≤ key ⌈q⌉
      · rw [if_pos hk] at hm
        have h4 : ⌊q⌋ ≤ 0 := by omega
        have h5 : ((⌊q⌋ : ℤ) : ℚ) ≤ 0 := by exact_mod_cast h4
        have h3 := Int.lt_floor_add_one q
        linarith
      · rw [if_neg hk] at hm
        have h4 : ⌈q⌉ ≤ 0 := by omega
        have h5 : ((⌈q⌉ : ℤ) : ℚ) ≤ 0 := by exact_mod_cast h4
        have h3 := Int.le_ceil q
        linarith
    rw [abs_le]
    refine ⟨?_, ?_⟩
    · push_cast
      linarith
    · push_cast
      linarith

theorem thumbnail1024_of_small {w h : Nat} (hw : w ≤ 1024) (hh : h ≤ 1024) :
    thumbnail1024 w h = (w, h) := by
  unfold thumbnail1024
  rw [if_pos ⟨hw, hh⟩]

theorem thumbnail1024_tall {w h : Nat} (h0 : ¬ (1024 ≥ w ∧ 1024 ≥ h))
    (h2 : (1024 : ℚ) / 1024 ≥ (w : ℚ) / (h : ℚ)) :
    thumbnail1024 w h
      = ((round_aspect (1024 * ((w : ℚ) / (h : ℚ)))
          (fun n => |(w : ℚ) / (h : ℚ) - (n : ℚ) / 1024|)).toNat, 1024) := by
  unfold thumbnail1024
  rw [if_neg h0]
  show (if (1024 : ℚ) / 1024 ≥ (w : ℚ) / (h : ℚ) then
      ((round_aspect (1024 * ((w : ℚ) / (h : ℚ)))
        (fun n => |(w : ℚ) / (h : ℚ) - (n : ℚ) / 1024|)).toNat, 1024)
    else
      (1024, (round_aspect (1024 / ((w : ℚ) / (h : ℚ)))
        (fun n => |(1024 : ℚ) / (n : ℚ) - (w : ℚ) / (h : ℚ)|)).toNat)) = _
  rw [if_pos h2]

theorem thumbnail1024_wide {w h : Nat} (h0 : ¬ (1024 ≥ w ∧ 1024 ≥ h))
    (h2 : ¬ ((1024 : ℚ) / 1024 ≥ (w : ℚ) / (h : ℚ))) :
    thumbnail1024 w h
      = (1024, (round_aspect (1024 / ((w : ℚ) / (h : ℚ)))
          (fun n => |(1024 : ℚ) / (n : ℚ) - (w : ℚ) / (h : ℚ)|)).toNat) := by
  unfold thumbnail1024
  rw [if_neg h0]
  show (if (1024 : ℚ) / 1024 ≥ (w : ℚ) / (h : ℚ) then
      ((round_aspect (1024 * ((w : ℚ) / (h : ℚ)))
        (fun n => |(w : ℚ) / (h : ℚ) - (n : ℚ) / 1024|)).toNat, 1024)
    else
      (1024, (round_aspect (1024 / ((w : ℚ) / (h : ℚ)))
        (fun n => |(1024 : ℚ) / (n : ℚ) - (w : ℚ) / (h : ℚ)|)).toNat)) = _
  rw [if_neg h2]

/-- Both output dimensions of the thumbnail step are bounded by 1024, for
every input (small inputs pass through, large ones are scaled down). -/
theorem thumbnail1024_le (w h : Nat) :
    (thumbnail1024 w h).1 ≤ 1024 ∧ (thumbnail1024 w h).2 ≤ 1024 := by
  by_cases h0 : 1024 ≥ w ∧ 1024 ≥ h
  · rw [thumbnail1024_of_small h0.1 h0.2]
    exact ⟨h0.1, h0.2⟩
  · by_cases h2 : (1024 : ℚ) / 1024 ≥ (w : ℚ) / (h : ℚ)
    · rw [thumbnail1024_tall h0 h2]
      refine ⟨?_, le_refl _⟩
      have ha : (w : ℚ) / (h : ℚ) ≤ 1 := by
        rwa [div_self (by norm_num : (1024 : ℚ) ≠ 0)] at h2
      have hq : 1024 * ((w : ℚ) / (h : ℚ)) ≤ ((1024 : ℤ) : ℚ) := by
        push_cast
        linarith
      exact Int.toNat_le.mpr (round_aspect_le hq (by norm_num))
    · rw [thumbnail1024_wide h0 h2]
      refine ⟨le_refl _, ?_⟩
      have ha : 1 < (w : ℚ) / (h : ℚ) := by
        have h3 := not_le.mp h2
        rwa [div_self (by norm_num : (1024 : ℚ) ≠ 0)] at h3
      have hq : 1024 / ((w : ℚ) / (h : ℚ)) ≤ ((1024 : ℤ) : ℚ) := by
        push_cast
        exact div_le_self (by norm_num) (le_of_lt ha)
      exact Int.toNat_le.mpr (round_aspect_le hq (by norm_num))

/-! ## Base64 and the data URL -/

theorem base64Char_symbol : ∀ n, n < 64 → isBase64Symbol (base64Char n) = true := by
  decide

theorem base64encode_symbols : ∀ l : List Nat, (∀ b ∈ l, b < 256) →
    ∀ c ∈ base64encodeList l, isBase64Symbol c = true
  | [], _ => by
    intro c hc
    simp [base64encodeList] at hc
  | [b1], h => by
    intro c hc
    have hb1 : b1 < 256 := h b1 (by simp)
    simp only [base64encodeList, List.mem_cons, List.not_mem_nil, or_false] at hc
    rcases hc with rfl | rfl | rfl | rfl
    · exact base64Char_symbol _ (by omega)
    · exact base64Char_symbol _ (by omega)
    · decide
    · decide
  | [b1, b2], h => by
    intro c hc
    have hb1 : b1 < 256 := h b1 (by simp)
    have hb2 : b2 < 256 := h b2 (by simp)
    simp only [base64encodeList, List.mem_cons, List.not_mem_nil, or_false] at hc
    rcases hc with rfl | rfl | rfl | rfl
    · exact base64Char_symbol _ (by omega)
    · exact base64Char_symbol _ (by omega)
    · exact base64Char_symbol _ (by omega)
    · decide
  | b1 :: b2 :: b3 :: rest, h => by
    intro c hc
    have hb1 : b1 < 256 := h b1 (by simp)
    have hb2 : b2 < 256 := h b2 (by simp)
    have hb3 : b3 < 256 := h b3 (by simp)
    simp only [base64encodeList, List.mem_cons] at hc
    rcases hc with rfl | rfl | rfl | rfl | hc
    · exact base64Char_symbol _ (by omega)
    · exact base64Char_symbol _ (by omega)
    · exact base64Char_symbol _ (by omega)
    · exact base64Char_symbol _ (by omega)
    · exact base64encode_symbols rest (fun b hb => h b (by simp [hb])) c hc

theorem jpegEncode_bytes_lt (w h q : Nat) (hw : w ≤ 1024) (hh : h ≤ 1024) :
    ∀ b ∈ jpegEncode w h q, b < 256 := by
  intro b hb
  simp only [jpegEncode, List.mem_append, List.mem_cons, List.not_mem_nil, or_false] at hb
  omega

/-- **C4**.  For every decodable upload, the normalizer's output is literally
`data:image/jpeg;base64,` followed by the base64 encoding of the (non-empty)
JPEG byte stream, every character of which is a base64 symbol; the payload is
by construction the encoding of those bytes, so it decodes back to them. -/
theorem C4_data_url_format (img : RawImage) (hdec : img.decodable = true) :
    ∃ bytes : List Nat, bytes ≠ [] ∧
      b64_data_url img
        = some ("data:image/jpeg;base64," ++ String.mk (base64encodeList bytes)) ∧
      ∀ c ∈ base64encodeList bytes, isBase64Symbol c = true := by
  refine ⟨jpegEncode (thumbnail1024 img.width img.height).1
      (thumbnail1024 img.width img.height).2 80, ?_, ?_, ?_⟩
  · simp [jpegEncode]
  · simp [b64_data_url, hdec]
  · exact base64encode_symbols _
      (jpegEncode_bytes_lt _ _ _ (thumbnail1024_le _ _).1 (thumbnail1024_le _ _).2)

/-- **C3**.  The strict normalizer never upscales: inputs within 1024×1024
pass through with their exact dimensions, and for any larger input both
output sides are at most 1024 — the kept side is exactly 1024 and the scaled
side is the exact proportional value `1024 · short / long` up to rounding
(within 1), preserving the aspect ratio. -/
theorem C3_strict_normalizer_dims (w h : Nat) (hw : 1 ≤ w) (hh : 1 ≤ h) :
    ThumbnailSpec w h := by
  have hwq : (0 : ℚ) < (w : ℚ) := by exact_mod_cast hw
  have hhq : (0 : ℚ) < (h : ℚ) := by exact_mod_cast hh
  constructor
  · rintro ⟨hw1, hh1⟩
    exact thumbnail1024_of_small hw1 hh1
  · intro hbig
    have h0 : ¬ (1024 ≥ w ∧ 1024 ≥ h) := by omega
    by_cases h2 : (1024 : ℚ) / 1024 ≥ (w : ℚ) / (h : ℚ)
    · have hwh : w ≤ h := by
        have ha : (w : ℚ) / (h : ℚ) ≤ 1 := by
          rwa [div_self (by norm_num : (1024 : ℚ) ≠ 0)] at h2
        have hc : (w : ℚ) ≤ (h : ℚ) := (div_le_one hhq).mp ha
        exact_mod_cast hc
      refine ⟨(thumbnail1024_le w h).1, (thumbnail1024_le w h).2, ?_, ?_⟩
      · intro _
        rw [thumbnail1024_tall h0 h2]
        refine ⟨rfl, ?_⟩
        have hq : (0 : ℚ) < 1024 * ((w : ℚ) / (h : ℚ)) :=
          mul_pos (by norm_num) (div_pos hwq hhq)
        have hcl := round_aspect_close
          (fun n => |(w : ℚ) / (h : ℚ) - (n : ℚ) / 1024|) hq
        simpa [mul_div_assoc] using hcl
      · intro hlt
        omega
    · have hwh : h < w := by
        have ha : 1 < (w : ℚ) / (h : ℚ) := by
          have h3 := not_le.mp h2
          rwa [div_self (by norm_num : (1024 : ℚ) ≠ 0)] at h3
        have hc : (h : ℚ) < (w : ℚ) := (one_lt_div hhq).mp ha
        exact_mod_cast hc
      refine ⟨(thumbnail1024_le w h).1, (thumbnail1024_le w h).2, ?_, ?_⟩
      · intro hle
        omega
      · intro _
        rw [thumbnail1024_wide h0 h2]
        refine ⟨rfl, ?_⟩
        have hq : (0 : ℚ) < 1024 / ((w : ℚ) / (h : ℚ)) :=
          div_pos (by norm_num) (div_pos hwq hhq)
        have hcl := round_aspect_close
          (fun n => |(1024 : ℚ) / (n : ℚ) - (w : ℚ) / (h : ℚ)|) hq
        have heq : (1024 : ℚ) / ((w : ℚ) / (h : ℚ)) = 1024 * (h : ℚ) / (w : ℚ) :=
          div_div_eq_mul_div 1024 (w : ℚ) (h : ℚ)
        simpa [heq] using hcl

theorem C3_strict_normalizer_witness :
    (1 ≤ 4000 ∧ 1 ≤ 3000) ∧ ThumbnailSpec 4000 3000
      ∧ thumbnail1024 4000 3000 = (1024, 768) := by
  refine ⟨by decide, C3_strict_normalizer_dims 4000 3000 (by decide) (by decide), ?_⟩
  rw [thumbnail1024_wide (by omega) (by norm_num)]
  have h768 : (1024 : ℚ) / (((4000 : ℕ) : ℚ) / ((3000 : ℕ) : ℚ)) = ((768 : ℤ) : ℚ) := by
    norm_num
  rw [h768]
  unfold round_aspect
  rw [Int.floor_intCast, Int.ceil_intCast, ite_self]
  decide

theorem C4_data_url_witness :
    (RawImage.decodable ⟨true, 4000, 3000⟩ = true) ∧
      ∃ bytes : List Nat, bytes ≠ [] ∧
        b64_data_url ⟨true, 4000, 3000⟩
          = some ("data:image/jpeg;base64," ++ String.mk (base64encodeList bytes)) ∧
        ∀ c ∈ base64encodeList bytes, isBase64Symbol c = true :=
  ⟨rfl, C4_data_url_format ⟨true, 4000, 3000⟩ rfl⟩

end PawDoctor
